import Mathlib

/-!
Verification of the metar-map LED engine (src/code.py).

The program drives one RGB LED per airport, colored by that airport's
aviation flight category fetched over HTTP.  We embed the program
shallowly: hardware writes, HTTP requests, console prints and sleeps
become events in an explicit trace; the HTTP world is a function from
airport code to response outcome; Python floats for the brightness
scalar are modelled as rationals; Python `int()` truncation is
`Int.tdiv` (truncation toward zero).
-/

namespace MetarMap

/- Color constants from class LEDColors in src/code.py. -/
namespace LEDColors

def GREEN : Nat := 0x00FF00

def RED : Nat := 0xFF0000

def BLUE : Nat := 0x0000FF

def PURPLE : Nat := 0xFF00FF

def YELLOW : Nat := 0xFF2200

def WIFI_BLUE : Nat := 0x00F9E9

end LEDColors

/-- Flight categories, from class FlightCategory in src/code.py. -/
inductive FlightCategory where
  | UNKNOWN
  | VFR
  | MVFR
  | IFR
  | LIFR
deriving DecidableEq, Repr

/-- FlightCategory.from_string: dictionary lookup with default UNKNOWN. -/
def FlightCategory.from_string (name : String) : FlightCategory :=
  if name = "UNKNOWN" then .UNKNOWN
  else if name = "VFR" then .VFR
  else if name = "MVFR" then .MVFR
  else if name = "IFR" then .IFR
  else if name = "LIFR" then .LIFR
  else .UNKNOWN

/-- Python int() truncates toward zero; on a rational this is num tdiv den. -/
def pyInt (q : ℚ) : ℤ := q.num.tdiv q.den

/-- Test whether one character list begins with another (regex literal matching). -/
def listStartsWith : List Char → List Char → Bool
  | [], _ => true
  | _ :: _, [] => false
  | p :: ps, c :: cs => p = c && listStartsWith ps cs

/-- Literal opening marker of the regex in Airport.update_flight_category. -/
def openTag : List Char := "<flight_category>".data

/-- Literal closing marker of the regex in Airport.update_flight_category. -/
def closeTag : List Char := "</flight_category>".data

/-- Positions where the close tag may end the greedy group: the prefix up to
the position must contain no newline (regex dot excludes newlines) and the
close tag must match at the position. -/
def closeCandidates (cs : List Char) : List Nat :=
  (List.range (cs.length + 1)).filter fun i =>
    !(cs.take i).contains '\n' && listStartsWith closeTag (cs.drop i)

/-- Greedy group of the regex: the dot-star backtracks from the right, so the
group extends to the last admissible close-tag position. -/
def greedyGroup (cs : List Char) : Option (List Char) :=
  match (closeCandidates cs).getLast? with
  | some i => some (cs.take i)
  | none => none

/-- Leftmost-match search of re.search for the flight-category pattern:
try each start position left to right; at an open-tag occurrence take the
greedy group if the pattern completes there, otherwise keep scanning. -/
def reSearchFC : List Char → Option (List Char)
  | [] => none
  | c :: rest =>
    if listStartsWith openTag (c :: rest) then
      match greedyGroup ((c :: rest).drop openTag.length) with
      | some g => some g
      | none => reSearchFC rest
    else reSearchFC rest

/-- Extraction step of Airport.update_flight_category: the text between the
flight-category markers of the response body, none when re.search finds no
match (in which case the source raises via .group on None). -/
def extractFlightCategory (body : String) : Option String :=
  (reSearchFC body.data).map fun cs => String.mk cs

/-- Whitespace characters recognized by Python str.split with no argument. -/
def isPySpace (c : Char) : Bool :=
  c = ' ' || c = '\t' || c = '\n' || c = '\r' || c = '\x0b' || c = '\x0c'

/-- Accumulating worker for pySplit. -/
def pySplitAux : List Char → List Char → List String
  | [], acc => if acc.isEmpty then [] else [String.mk acc.reverse]
  | c :: cs, acc =>
    if isPySpace c then
      if acc.isEmpty then pySplitAux cs []
      else String.mk acc.reverse :: pySplitAux cs []
    else pySplitAux cs (c :: acc)

/-- Python str.split with no argument: split on whitespace runs, no empty
fields. Used by Airport.from_config_line. -/
def pySplit (line : String) : List String := pySplitAux line.data []

/-- Value of a single digit character, accepting both hexadecimal cases. -/
def digitVal (c : Char) : Option Nat :=
  if '0' ≤ c ∧ c ≤ '9' then some (c.toNat - '0'.toNat)
  else if 'a' ≤ c ∧ c ≤ 'f' then some (c.toNat - 'a'.toNat + 10)
  else if 'A' ≤ c ∧ c ≤ 'F' then some (c.toNat - 'A'.toNat + 10)
  else none

/-- Accumulating digit-string evaluation in the given base. -/
def digitsValAux (base : Nat) : List Char → Nat → Option Nat
  | [], acc => some acc
  | c :: cs, acc =>
    match digitVal c with
    | some v => if v < base then digitsValAux base cs (acc * base + v) else none
    | none => none

/-- Value of a nonempty digit string in the given base, none when empty or
when any character is not a digit of the base. -/
def digitsVal (base : Nat) (cs : List Char) : Option Nat :=
  match cs with
  | [] => none
  | _ :: _ => digitsValAux base cs 0

/-- Digits with the optional 0x marker Python accepts for base 16. -/
def unsignedDigits (base : Nat) (cs : List Char) : Option Nat :=
  let body :=
    if base = 16 then
      match cs with
      | '0' :: 'x' :: rest => rest
      | '0' :: 'X' :: rest => rest
      | _ => cs
    else cs
  digitsVal base body

/-- Python int(s, base): optional sign then digits; none models ValueError. -/
def signedVal (base : Nat) (cs : List Char) : Option ℤ :=
  match cs with
  | '-' :: rest => (unsignedDigits base rest).map fun n => -(n : ℤ)
  | '+' :: rest => (unsignedDigits base rest).map fun n => (n : ℤ)
  | _ => (unsignedDigits base cs).map fun n => (n : ℤ)

/-- Python int(s) in base 10. -/
def pyParseInt (s : String) : Option ℤ := signedVal 10 s.data

/-- Python int(s, 16). -/
def pyParseHex (s : String) : Option ℤ := signedVal 16 s.data

/-- Python list indexing, which admits negative indices counted from the end;
none models IndexError. -/
def pyListGet {α : Type} (l : List α) (i : ℤ) : Option α :=
  if 0 ≤ i then l.get? i.toNat
  else if (-i).toNat ≤ l.length then l.get? (l.length - (-i).toNat)
  else none

/-- An LED driver board (class LEDDriverBoard): identified by its I2C
controller (by identity) and its bus address. -/
structure LEDDriverBoard where
  controller : Nat
  addr : Nat
deriving DecidableEq, Repr

/-- Class BoardManager: the list of controllers and the registered boards. -/
structure BoardManager where
  controllers : List Nat
  boards : List LEDDriverBoard
deriving DecidableEq, Repr

/-- BoardManager.add_board: registers a new board on the given controller. -/
def BoardManager.add_board (bm : BoardManager) (controller : Nat) (addr : Nat) : BoardManager :=
  { bm with boards := bm.boards ++ [⟨controller, addr⟩] }

/-- BoardManager.get_board: first registered board whose controller is the
one at the given index and whose address matches; None when no board
matches. -/
def BoardManager.get_board (bm : BoardManager) (controller_index : ℤ) (addr : ℤ) :
    Option LEDDriverBoard :=
  bm.boards.find? fun b =>
    decide (pyListGet bm.controllers controller_index = some b.controller) &&
      decide ((b.addr : ℤ) = addr)

/-- Class RGBLED: three channel indices bound to one host board. -/
structure RGBLED where
  host : LEDDriverBoard
  red_pin_num : ℤ
  green_pin_num : ℤ
  blue_pin_num : ℤ
deriving DecidableEq, Repr

/-- One constant-current write issued through a board (set_constant_current). -/
structure ChannelWrite where
  board : LEDDriverBoard
  pin : ℤ
  value : ℤ
deriving DecidableEq, Repr

/-- RGBLED.set_color: decompose the packed color with shift and mask exactly
as the source does and issue the three channel writes through the host. -/
def RGBLED.set_color (led : RGBLED) (color : Nat) (brightness : ℚ) : List ChannelWrite :=
  let r := color >>> 16
  let g := (color &&& 0x00FF00) >>> 8
  let b := color &&& 0x0000FF
  [⟨led.host, led.red_pin_num, pyInt ((r : ℚ) * brightness)⟩,
   ⟨led.host, led.green_pin_num, pyInt ((g : ℚ) * brightness)⟩,
   ⟨led.host, led.blue_pin_num, pyInt ((b : ℚ) * brightness)⟩]

/-- Observable events of a run: HTTP requests, console prints, one event per
RGBLED.set_color call, and sleeps. -/
inductive Event where
  | httpGet (code : String)
  | printTrying (code alt : String)
  | printError (code : String)
  | printAttempt (k : Nat)
  | printConnected
  | ledWrite (led : RGBLED) (color : Nat) (brightness : ℚ)
  | sleep (t : Nat)
deriving DecidableEq, Repr

/-- Class Airport: identity, alternate code, owned LED, and the mutable
current category (field flight_category in the source). -/
structure Airport where
  airport_code : String
  alternate : String
  led : RGBLED
  flight_category : FlightCategory
deriving DecidableEq, Repr

/-- Airport._get_color_from_flight_category: the color policy table with
dictionary default YELLOW (unreachable on the enumerated type). -/
def Airport.get_color_from_flight_category : FlightCategory → Nat
  | .VFR => LEDColors.GREEN
  | .MVFR => LEDColors.BLUE
  | .IFR => LEDColors.RED
  | .LIFR => LEDColors.PURPLE
  | .UNKNOWN => LEDColors.YELLOW

/-- Airport.__init__: build the LED, paint it yellow, start at UNKNOWN. -/
def Airport.init (airport_code : String) (red_pin green_pin blue_pin : ℤ)
    (alternate : String) (host : LEDDriverBoard) (brightness : ℚ) : Airport × List Event :=
  let led : RGBLED := ⟨host, red_pin, green_pin, blue_pin⟩
  (⟨airport_code, alternate, led, FlightCategory.UNKNOWN⟩,
   [Event.ledWrite led LEDColors.YELLOW brightness])

/-- Outcome of one HTTP GET: a transport error or a response body. -/
inductive HttpResult where
  | err
  | ok (body : String)
deriving DecidableEq, Repr

/-- The upstream weather service, as a map from requested airport code to
the outcome of the GET for that code. -/
def Session := String → HttpResult

/-- The except-branch of Airport.update_flight_category: log, query the
alternate code, extract and parse; any failure yields UNKNOWN plus the
error print. -/
def Airport.tryAlternate (a : Airport) (session : Session) : FlightCategory × List Event :=
  let pre := [Event.printTrying a.airport_code a.alternate, Event.httpGet a.alternate]
  match session a.alternate with
  | .err => (.UNKNOWN, pre ++ [Event.printError a.airport_code])
  | .ok body =>
    match extractFlightCategory body with
    | none => (.UNKNOWN, pre ++ [Event.printError a.airport_code])
    | some s => (FlightCategory.from_string s, pre)

/-- Fetch phase of Airport.update_flight_category: primary GET, extraction,
parse, with the explicit raise on UNKNOWN; on any failure fall through to
the alternate attempt. -/
def Airport.resolveCategory (a : Airport) (session : Session) : FlightCategory × List Event :=
  match session a.airport_code with
  | .err =>
    let alt := a.tryAlternate session
    (alt.1, Event.httpGet a.airport_code :: alt.2)
  | .ok body =>
    match extractFlightCategory body with
    | none =>
      let alt := a.tryAlternate session
      (alt.1, Event.httpGet a.airport_code :: alt.2)
    | some s =>
      match FlightCategory.from_string s with
      | .UNKNOWN =>
        let alt := a.tryAlternate session
        (alt.1, Event.httpGet a.airport_code :: alt.2)
      | fc => (fc, [Event.httpGet a.airport_code])

/-- Airport.update_flight_category: resolve the category through the
primary-then-alternate chain, then write the LED only on change. -/
def Airport.update_flight_category (a : Airport) (session : Session) (brightness : ℚ) :
    Airport × List Event :=
  let res := a.resolveCategory session
  if res.1 ≠ a.flight_category then
    ({ a with flight_category := res.1 },
     res.2 ++ [Event.ledWrite a.led (Airport.get_color_from_flight_category res.1) brightness])
  else (a, res.2)

/-- Python exceptions that configuration loading can raise. -/
inductive PyError where
  | indexError
  | valueError
  | attributeError
deriving DecidableEq, Repr

/-- Airport.from_config_line: split the line and evaluate exactly in source
order: int(fields[1]), int(fields[2], 16), the board lookup, then the
constructor arguments; constructing with host None raises AttributeError
inside RGBLED (None.get_pin). -/
def Airport.from_config_line (line : String) (bm : BoardManager) (brightness : ℚ) :
    Except PyError (Airport × List Event) :=
  let fields := pySplit line
  match fields.get? 1 with
  | none => .error .indexError
  | some f1 =>
    match pyParseInt f1 with
    | none => .error .valueError
    | some ci =>
      match fields.get? 2 with
      | none => .error .indexError
      | some f2 =>
        match pyParseHex f2 with
        | none => .error .valueError
        | some ad =>
          let host := bm.get_board ci ad
          match fields.get? 0 with
          | none => .error .indexError
          | some code =>
            match fields.get? 3 with
            | none => .error .indexError
            | some f3 =>
              match pyParseInt f3 with
              | none => .error .valueError
              | some rp =>
                match fields.get? 4 with
                | none => .error .indexError
                | some f4 =>
                  match pyParseInt f4 with
                  | none => .error .valueError
                  | some gp =>
                    match fields.get? 5 with
                    | none => .error .indexError
                    | some f5 =>
                      match pyParseInt f5 with
                      | none => .error .valueError
                      | some bp =>
                        match fields.get? 6 with
                        | none => .error .indexError
                        | some alt =>
                          match host with
                          | none => .error .attributeError
                          | some h =>
                            .ok (Airport.init code rp gp bp alt h brightness)

/-- AirportManager.load_airports over the lines of the file: any exception
from a line propagates and aborts loading. -/
def AirportManager.load_airports (bm : BoardManager) (brightness : ℚ) :
    List String → Except PyError (List Airport × List Event)
  | [] => .ok ([], [])
  | line :: rest =>
    match Airport.from_config_line line bm brightness with
    | .error e => .error e
    | .ok ae =>
      match AirportManager.load_airports bm brightness rest with
      | .error e => .error e
      | .ok rest2 => .ok (ae.1 :: rest2.1, ae.2 ++ rest2.2)

/-- Map.show_color: one set_color call per airport, in list order. -/
def Map.show_color (airports : List Airport) (color : Nat) (brightness : ℚ) : List Event :=
  airports.map fun a => Event.ledWrite a.led color brightness

/-- Body of the retry loop of Map.connect_wifi: wifi gives each numbered
attempt's outcome; per attempt the map turns wifi-blue and the attempt is
announced; success returns True at once, ConnectionError sleeps one unit
and continues; an exhausted list returns False. -/
def connectAttempts (airports : List Airport) (wifi : Nat → Bool) (brightness : ℚ) :
    List Nat → Bool × List Event
  | [] => (false, [])
  | k :: rest =>
    let evs := Map.show_color airports LEDColors.WIFI_BLUE brightness ++ [Event.printAttempt k]
    if wifi k then
      (true, evs ++ [Event.printConnected])
    else
      let next := connectAttempts airports wifi brightness rest
      (next.1, evs ++ Event.sleep 1 :: next.2)

/-- Map.connect_wifi: for attempt in range(1, 6). -/
def Map.connect_wifi (airports : List Airport) (wifi : Nat → Bool) (brightness : ℚ) :
    Bool × List Event :=
  connectAttempts airports wifi brightness [1, 2, 3, 4, 5]

/-- How the startup phase of main ends: process exit with a code, or entry
into the unbounded polling loop. -/
inductive MainOutcome where
  | exited (code : Nat)
  | polling
deriving DecidableEq, Repr

/-- Startup phase of main after configuration loading: connect, then either
all-green, pause, all-yellow and enter the polling loop, or all-red and
sys.exit(1). -/
def mainStartup (airports : List Airport) (wifi : Nat → Bool) (brightness : ℚ) :
    MainOutcome × List Event :=
  let conn := Map.connect_wifi airports wifi brightness
  if conn.1 then
    (.polling,
     conn.2 ++ Map.show_color airports LEDColors.GREEN brightness ++ [Event.sleep 1] ++
       Map.show_color airports LEDColors.YELLOW brightness)
  else
    (.exited 1, conn.2 ++ Map.show_color airports LEDColors.RED brightness)

/-- Whole startup of main: load the configuration (an exception aborts the
process), then run the startup phase. -/
def mainRun (lines : List String) (bm : BoardManager) (wifi : Nat → Bool) (brightness : ℚ) :
    Except PyError (MainOutcome × List Event) :=
  match AirportManager.load_airports bm brightness lines with
  | .error e => .error e
  | .ok al =>
    let st := mainStartup al.1 wifi brightness
    .ok (st.1, al.2 ++ st.2)

/-- Recognizer for HTTP request events. -/
def isGetEv : Event → Bool
  | .httpGet _ => true
  | _ => false

/-- Recognizer for set_color call events. -/
def isLedWriteEv : Event → Bool
  | .ledWrite _ _ _ => true
  | _ => false

/-- Recognizer for error-log prints. -/
def isErrorPrintEv : Event → Bool
  | .printError _ => true
  | _ => false

/-- Recognizer for connection-attempt announcements. -/
def isAttemptEv : Event → Bool
  | .printAttempt _ => true
  | _ => false

/-- Recognizer for sleeps. -/
def isSleepEv : Event → Bool
  | .sleep _ => true
  | _ => false

/-- Number of HTTP requests in a trace. -/
def countGets (evs : List Event) : Nat := evs.countP isGetEv

/-- Number of set_color calls in a trace. -/
def countLedWrites (evs : List Event) : Nat := evs.countP isLedWriteEv

/-- Number of connection attempts in a trace. -/
def countAttempts (evs : List Event) : Nat := evs.countP isAttemptEv

/-- Number of sleeps in a trace. -/
def countSleeps (evs : List Event) : Nat := evs.countP isSleepEv

/-- Color physically shown on a given LED after a trace runs, starting from
a given displayed color: the last write to that LED wins. -/
def displayedColor (led : RGBLED) : Nat → List Event → Nat
  | d, [] => d
  | d, Event.ledWrite l c _ :: rest => displayedColor led (if l = led then c else d) rest
  | d, _ :: rest => displayedColor led d rest

/-- Failure of the primary attempt, in the words of the specification: the
request errored, or the body lacks the marker, or the extracted string
parses to Unknown. -/
def primaryAttemptFailed (session : Session) (code : String) : Prop :=
  session code = HttpResult.err ∨
  (∃ body, session code = HttpResult.ok body ∧ extractFlightCategory body = none) ∨
  (∃ body s, session code = HttpResult.ok body ∧ extractFlightCategory body = some s ∧
    FlightCategory.from_string s = FlightCategory.UNKNOWN)

/-!  Helper lemmas. -/

/-- Python truncation agrees with the floor on nonnegative rationals. -/
lemma pyInt_eq_floor (q : ℚ) (h : 0 ≤ q) : pyInt q = ⌊q⌋ := by
  rw [Rat.floor_def, pyInt]
  have hnum : 0 ≤ q.num := Rat.num_nonneg.mpr h
  obtain ⟨m, hm⟩ := Int.eq_ofNat_of_zero_le hnum
  rw [hm]
  exact (Int.ofNat_tdiv m q.den).symm

/-- Right shift distributes over bitwise and. -/
lemma and_shiftRight_distrib (a b n : Nat) : (a &&& b) >>> n = (a >>> n) &&& (b >>> n) :=
  Nat.eq_of_testBit_eq (by simp [Nat.testBit_shiftRight, Nat.testBit_and, Nat.add_comm])

/-- The green-channel mask-and-shift is the middle byte. -/
lemma green_byte (color : Nat) : (color &&& 0x00FF00) >>> 8 = color / 2 ^ 8 % 2 ^ 8 := by
  rw [and_shiftRight_distrib]
  have h1 : (0x00FF00 : Nat) >>> 8 = 2 ^ 8 - 1 := by decide
  rw [h1, Nat.and_pow_two_sub_one_eq_mod, Nat.shiftRight_eq_div_pow]

/-- The blue-channel mask is the low byte. -/
lemma blue_byte (color : Nat) : color &&& 0x0000FF = color % 2 ^ 8 := by
  have h1 : (0x0000FF : Nat) = 2 ^ 8 - 1 := by decide
  rw [h1, Nat.and_pow_two_sub_one_eq_mod]

/-- For a 24-bit color the unmasked red shift is the high byte. -/
lemma red_byte (color : Nat) (h : color < 2 ^ 24) : color >>> 16 = color / 2 ^ 16 % 2 ^ 8 := by
  rw [Nat.shiftRight_eq_div_pow]
  have h2 : color / 2 ^ 16 < 2 ^ 8 := by omega
  rw [Nat.mod_eq_of_lt h2]

/-- The state update of update_flight_category, written as one conditional. -/
lemma update_eq_ite (a : Airport) (s : Session) (br : ℚ) :
    a.update_flight_category s br =
      if (a.resolveCategory s).1 = a.flight_category then (a, (a.resolveCategory s).2)
      else ({ a with flight_category := (a.resolveCategory s).1 },
        (a.resolveCategory s).2 ++
          [Event.ledWrite a.led
            (Airport.get_color_from_flight_category (a.resolveCategory s).1) br]) := by
  rw [Airport.update_flight_category]
  by_cases h : (a.resolveCategory s).1 = a.flight_category <;> simp [h]

/-- The fetch phase never reads the mutable category. -/
lemma resolveCategory_state_free (a : Airport) (fc : FlightCategory) (s : Session) :
    ({ a with flight_category := fc } : Airport).resolveCategory s = a.resolveCategory s := rfl

/-- Outcomes of the alternate attempt: either everything after the two logs
fails and UNKNOWN is produced with the error print, or a string is
extracted and parsed with no error print. -/
lemma tryAlternate_cases (a : Airport) (s : Session) :
    (a.tryAlternate s =
      (FlightCategory.UNKNOWN,
       [Event.printTrying a.airport_code a.alternate, Event.httpGet a.alternate,
        Event.printError a.airport_code])) ∨
    (∃ body str, s a.alternate = HttpResult.ok body ∧ extractFlightCategory body = some str ∧
      a.tryAlternate s =
        (FlightCategory.from_string str,
         [Event.printTrying a.airport_code a.alternate, Event.httpGet a.alternate])) := by
  cases hs : s a.alternate with
  | err => exact Or.inl (by simp [Airport.tryAlternate, hs])
  | ok body =>
    cases hx : extractFlightCategory body with
    | none => exact Or.inl (by simp [Airport.tryAlternate, hs, hx])
    | some str => exact Or.inr ⟨body, str, rfl, hx, by simp [Airport.tryAlternate, hs, hx]⟩

/-- When the primary attempt fails the fetch phase runs the alternate. -/
lemma resolve_of_failed (a : Airport) (s : Session)
    (h : primaryAttemptFailed s a.airport_code) :
    a.resolveCategory s =
      ((a.tryAlternate s).1, Event.httpGet a.airport_code :: (a.tryAlternate s).2) := by
  rcases h with h | ⟨body, hok, hex⟩ | ⟨body, str, hok, hex, hun⟩
  · simp [Airport.resolveCategory, h]
  · simp [Airport.resolveCategory, hok, hex]
  · simp [Airport.resolveCategory, hok, hex, hun]

/-- When the primary attempt extracts a recognized non-Unknown category the
fetch phase stops after the single request. -/
lemma resolve_of_success (a : Airport) (s : Session) (body str : String)
    (hok : s a.airport_code = HttpResult.ok body)
    (hex : extractFlightCategory body = some str)
    (hne : FlightCategory.from_string str ≠ FlightCategory.UNKNOWN) :
    a.resolveCategory s =
      (FlightCategory.from_string str, [Event.httpGet a.airport_code]) := by
  cases hfc : FlightCategory.from_string str with
  | UNKNOWN => exact absurd hfc hne
  | VFR => simp [Airport.resolveCategory, hok, hex, hfc]
  | MVFR => simp [Airport.resolveCategory, hok, hex, hfc]
  | IFR => simp [Airport.resolveCategory, hok, hex, hfc]
  | LIFR => simp [Airport.resolveCategory, hok, hex, hfc]

/-- A primary attempt that does not fail has an extracted recognized string. -/
lemma success_of_not_failed (s : Session) (code : String)
    (h : ¬ primaryAttemptFailed s code) :
    ∃ body str, s code = HttpResult.ok body ∧ extractFlightCategory body = some str ∧
      FlightCategory.from_string str ≠ FlightCategory.UNKNOWN := by
  cases hs : s code with
  | err => exact absurd (Or.inl hs) h
  | ok body =>
    cases hx : extractFlightCategory body with
    | none => exact absurd (Or.inr (Or.inl ⟨body, hs, hx⟩)) h
    | some str =>
      by_cases hu : FlightCategory.from_string str = FlightCategory.UNKNOWN
      · exact absurd (Or.inr (Or.inr ⟨body, str, hs, hx, hu⟩)) h
      · exact ⟨body, str, rfl, hx, hu⟩

/-- The fetch phase issues no LED write. -/
lemma countLedWrites_resolve (a : Airport) (s : Session) :
    countLedWrites (a.resolveCategory s).2 = 0 := by
  by_cases h : primaryAttemptFailed s a.airport_code
  · rw [resolve_of_failed a s h]
    rcases tryAlternate_cases a s with h2 | ⟨body, str, _, _, h2⟩ <;>
      simp [h2, countLedWrites, isLedWriteEv]
  · obtain ⟨body, str, hok, hex, hne⟩ := success_of_not_failed s a.airport_code h
    rw [resolve_of_success a s body str hok hex hne]
    simp [countLedWrites, isLedWriteEv]

/-- Request counts pass unchanged through the write phase. -/
lemma countGets_update (a : Airport) (s : Session) (br : ℚ) :
    countGets (a.update_flight_category s br).2 = countGets (a.resolveCategory s).2 := by
  rw [update_eq_ite]
  by_cases h : (a.resolveCategory s).1 = a.flight_category <;>
    simp [h, countGets, isGetEv]

/-- Error-print membership passes unchanged through the write phase. -/
lemma printError_update (a : Airport) (s : Session) (br : ℚ) (c : String) :
    (Event.printError c ∈ (a.update_flight_category s br).2 ↔
      Event.printError c ∈ (a.resolveCategory s).2) := by
  rw [update_eq_ite]
  by_cases h : (a.resolveCategory s).1 = a.flight_category <;> simp [h]

/-- LED-write count of one update call: one write when the resolved category
differs from the stored one, none otherwise. -/
lemma countLedWrites_update (a : Airport) (s : Session) (br : ℚ) :
    countLedWrites (a.update_flight_category s br).2 =
      if (a.resolveCategory s).1 = a.flight_category then 0 else 1 := by
  rw [update_eq_ite]
  have h0 := countLedWrites_resolve a s
  by_cases h : (a.resolveCategory s).1 = a.flight_category
  · simp only [if_pos h]
    exact h0
  · simp only [if_neg h]
    rw [countLedWrites, List.countP_append]
    rw [countLedWrites] at h0
    simp [h0, isLedWriteEv]

/-- State result of one update call. -/
lemma update_state (a : Airport) (s : Session) (br : ℚ) :
    (a.update_flight_category s br).1 =
      { a with flight_category := (a.resolveCategory s).1 } := by
  rw [update_eq_ite]
  by_cases h : (a.resolveCategory s).1 = a.flight_category
  · simp only [if_pos h]
    cases a
    simp_all
  · simp [h]

/-- Displayed color after concatenated traces. -/
lemma displayedColor_append (led : RGBLED) (d : Nat) (evs1 evs2 : List Event) :
    displayedColor led d (evs1 ++ evs2) = displayedColor led (displayedColor led d evs1) evs2 := by
  induction evs1 generalizing d with
  | nil => rfl
  | cons e rest ih => cases e <;> simp [displayedColor, ih]

/-- A trace without LED writes leaves the displayed color unchanged. -/
lemma displayedColor_no_writes (led : RGBLED) (d : Nat) (evs : List Event)
    (h : countLedWrites evs = 0) : displayedColor led d evs = d := by
  induction evs generalizing d with
  | nil => rfl
  | cons e rest ih =>
    cases e with
    | ledWrite l c b => simp [countLedWrites, isLedWriteEv] at h
    | httpGet c => exact ih d (by simpa [countLedWrites, isLedWriteEv] using h)
    | printTrying c al => exact ih d (by simpa [countLedWrites, isLedWriteEv] using h)
    | printError c => exact ih d (by simpa [countLedWrites, isLedWriteEv] using h)
    | printAttempt k => exact ih d (by simpa [countLedWrites, isLedWriteEv] using h)
    | printConnected => exact ih d (by simpa [countLedWrites, isLedWriteEv] using h)
    | sleep t => exact ih d (by simpa [countLedWrites, isLedWriteEv] using h)

/-- An all-airports color sweep announces no connection attempt. -/
lemma countAttempts_show_color (airports : List Airport) (c : Nat) (br : ℚ) :
    countAttempts (Map.show_color airports c br) = 0 := by
  simp [Map.show_color, countAttempts, isAttemptEv, List.countP_map, Function.comp]

/-- An all-airports color sweep sleeps for no time. -/
lemma countSleeps_show_color (airports : List Airport) (c : Nat) (br : ℚ) :
    countSleeps (Map.show_color airports c br) = 0 := by
  simp [Map.show_color, countSleeps, isSleepEv, List.countP_map, Function.comp]

/-- No sleep event occurs in a color sweep. -/
lemma sleep_not_mem_show_color (airports : List Airport) (c : Nat) (br : ℚ) (t : Nat) :
    Event.sleep t ∉ Map.show_color airports c br := by
  simp [Map.show_color]

/-- Starting already at the sweep color, a sweep leaves the display there. -/
lemma displayedColor_show_color_const (led : RGBLED) (airports : List Airport) (c : Nat)
    (br : ℚ) : displayedColor led c (Map.show_color airports c br) = c := by
  induction airports with
  | nil => rfl
  | cons a rest ih =>
    by_cases h : a.led = led <;> simp [Map.show_color, displayedColor, h] <;>
      simpa [Map.show_color] using ih

/-- After a sweep every airport in the list displays the sweep color. -/
lemma displayedColor_show_color_mem (a : Airport) (airports : List Airport) (c : Nat)
    (br : ℚ) (d : Nat) (h : a ∈ airports) :
    displayedColor a.led d (Map.show_color airports c br) = c := by
  induction airports generalizing d with
  | nil => cases h
  | cons b rest ih =>
    rcases List.mem_cons.mp h with h1 | h1
    · subst h1
      simp only [Map.show_color, List.map_cons, displayedColor, if_pos rfl]
      simpa [Map.show_color] using displayedColor_show_color_const a.led rest c br
    · by_cases h2 : b.led = a.led <;>
        simpa [Map.show_color, displayedColor, h2] using ih _ h1

/-- The connection loop succeeds exactly when some listed attempt succeeds. -/
lemma connectAttempts_true_iff (airports : List Airport) (wifi : Nat → Bool) (br : ℚ)
    (ks : List Nat) :
    (connectAttempts airports wifi br ks).1 = true ↔ ∃ k ∈ ks, wifi k = true := by
  induction ks with
  | nil => simp [connectAttempts]
  | cons k rest ih =>
    by_cases h : wifi k <;> simp [connectAttempts, h, ih]

/-- A successfully loaded configuration has every line individually loadable. -/
lemma load_airports_ok_mem (bm : BoardManager) (br : ℚ) (lines : List String)
    (line : String) (z : List Airport × List Event)
    (h : AirportManager.load_airports bm br lines = Except.ok z) (hm : line ∈ lines) :
    ∃ res, Airport.from_config_line line bm br = Except.ok res := by
  induction lines generalizing z with
  | nil => cases hm
  | cons l rest ih =>
    rw [AirportManager.load_airports] at h
    rcases List.mem_cons.mp hm with h1 | h1
    · subst h1
      cases hc : Airport.from_config_line line bm br with
      | error e => rw [hc] at h; cases h
      | ok res => exact ⟨res, rfl⟩
    · cases hc : Airport.from_config_line l bm br with
      | error e => rw [hc] at h; cases h
      | ok res =>
        rw [hc] at h
        cases hr : AirportManager.load_airports bm br rest with
        | error e => rw [hr] at h; cases h
        | ok z2 => exact ih z2 hr h1

/-- Either phase-two appends one LED write to the fetch trace or not. -/
lemma update_trace (a : Airport) (s : Session) (br : ℚ) :
    (a.update_flight_category s br).2 = (a.resolveCategory s).2 ∨
    (a.update_flight_category s br).2 = (a.resolveCategory s).2 ++
      [Event.ledWrite a.led
        (Airport.get_color_from_flight_category (a.resolveCategory s).1) br] := by
  rw [update_eq_ite]
  by_cases h : (a.resolveCategory s).1 = a.flight_category
  · exact Or.inl (by rw [if_pos h])
  · exact Or.inr (by rw [if_neg h])

/-- A failed primary attempt costs two requests and shows the fallback shape. -/
lemma countGets_resolve_failed (a : Airport) (s : Session)
    (h : primaryAttemptFailed s a.airport_code) :
    countGets (a.resolveCategory s).2 = 2 ∧
    ∃ rest, (a.resolveCategory s).2 =
      Event.httpGet a.airport_code :: Event.printTrying a.airport_code a.alternate ::
        Event.httpGet a.alternate :: rest := by
  rw [resolve_of_failed a s h]
  rcases tryAlternate_cases a s with h2 | ⟨body, str, hb, hx, h2⟩ <;> rw [h2]
  · exact ⟨by simp [countGets, isGetEv], [Event.printError a.airport_code], rfl⟩
  · exact ⟨by simp [countGets, isGetEv], [], rfl⟩

/-- A successful primary attempt costs one request. -/
lemma countGets_resolve_success (a : Airport) (s : Session)
    (h : ¬ primaryAttemptFailed s a.airport_code) :
    countGets (a.resolveCategory s).2 = 1 := by
  obtain ⟨body, str, hok, hex, hne⟩ := success_of_not_failed s a.airport_code h
  rw [resolve_of_success a s body str hok hex hne]
  simp [countGets, isGetEv]

/-- Concrete board manager used by the closed instances below. -/
def bmW : BoardManager := ⟨[0, 1], [⟨0, 0x58⟩, ⟨1, 0x58⟩]⟩

/-- Concrete freshly constructed airport used by the closed instances below. -/
def aptW : Airport := ⟨"KJFK", "KLGA", ⟨⟨0, 0x58⟩, 0, 1, 2⟩, FlightCategory.UNKNOWN⟩

/-- World where the primary code errors and the alternate reports VFR. -/
def sesFallbackVFR : Session := fun c =>
  if c = "KLGA" then HttpResult.ok ("<flight_category>VFR</flight_category>")
  else HttpResult.err

/-- World where the primary code errors and the alternate reports an
unrecognized category string. -/
def sesUnrecognized : Session := fun c =>
  if c = "KLGA" then HttpResult.ok ("<flight_category>SVFR</flight_category>")
  else HttpResult.err

/-- C1: in update_flight_category the alternate airport code is queried if
and only if the primary attempt failed (transport error, missing marker, or
a string parsing to Unknown); a recognized non-Unknown primary result issues
exactly one request and no alternate query. -/
theorem fallback_iff_primary_failure (a : Airport) (s : Session) (br : ℚ) :
    (2 ≤ countGets (a.update_flight_category s br).2 ↔
      primaryAttemptFailed s a.airport_code) ∧
    (primaryAttemptFailed s a.airport_code →
      ∃ rest, (a.update_flight_category s br).2 =
        Event.httpGet a.airport_code :: Event.printTrying a.airport_code a.alternate ::
          Event.httpGet a.alternate :: rest) ∧
    (¬ primaryAttemptFailed s a.airport_code →
      countGets (a.update_flight_category s br).2 = 1) := by
  have hu := countGets_update a s br
  refine ⟨⟨fun hge => ?_, fun h => ?_⟩, fun h => ?_, fun h => ?_⟩
  · by_contra h
    rw [hu, countGets_resolve_success a s h] at hge
    omega
  · rw [hu, (countGets_resolve_failed a s h).1]
  · obtain ⟨-, rest0, hrest⟩ := countGets_resolve_failed a s h
    rcases update_trace a s br with ht | ht <;> rw [ht, hrest]
    · exact ⟨rest0, rfl⟩
    · exact ⟨rest0 ++
        [Event.ledWrite a.led
          (Airport.get_color_from_flight_category (a.resolveCategory s).1) br], by simp⟩
  · rw [hu]
    exact countGets_resolve_success a s h

/-- Closed instance of C1 at a concrete world whose primary request errors. -/
theorem fallback_iff_primary_failure_witness :
    2 ≤ countGets (aptW.update_flight_category sesFallbackVFR 1).2 :=
  (fallback_iff_primary_failure aptW sesFallbackVFR 1).1.mpr (Or.inl (by decide))

/-- C2: with an unchanged upstream category across two successive calls, the
first call performs one hardware write exactly when the resolved category
differs from the stored one, and the second call performs none; whenever the
resolved category equals the stored one, no write happens at all. -/
theorem update_write_idempotent (a : Airport) (s1 s2 : Session) (br : ℚ)
    (hsame : (a.resolveCategory s2).1 = (a.resolveCategory s1).1) :
    countLedWrites ((a.update_flight_category s1 br).1.update_flight_category s2 br).2 = 0 ∧
    countLedWrites (a.update_flight_category s1 br).2 =
      (if (a.resolveCategory s1).1 = a.flight_category then 0 else 1) ∧
    ((a.resolveCategory s1).1 = a.flight_category →
      countLedWrites (a.update_flight_category s1 br).2 = 0) := by
  have h1 := countLedWrites_update a s1 br
  refine ⟨?_, h1, fun h => by rw [h1, if_pos h]⟩
  have key : ((a.update_flight_category s1 br).1.resolveCategory s2).1 =
      (a.update_flight_category s1 br).1.flight_category := by
    rw [update_state, resolveCategory_state_free, hsame]
  rw [countLedWrites_update, if_pos key]

/-- Closed instance of C2: a second identical-world update writes nothing. -/
theorem update_write_idempotent_witness :
    countLedWrites
      ((aptW.update_flight_category sesFallbackVFR 1).1.update_flight_category
        sesFallbackVFR 1).2 = 0 :=
  (update_write_idempotent aptW sesFallbackVFR sesFallbackVFR 1 rfl).1

/-- C3: the color policy is total with the table VFR green, MVFR blue, IFR
red, LIFR purple, Unknown yellow, and every unrecognized string parses to
Unknown (not an error) and therefore maps to yellow. -/
theorem color_policy_total :
    Airport.get_color_from_flight_category FlightCategory.VFR = LEDColors.GREEN ∧
    Airport.get_color_from_flight_category FlightCategory.MVFR = LEDColors.BLUE ∧
    Airport.get_color_from_flight_category FlightCategory.IFR = LEDColors.RED ∧
    Airport.get_color_from_flight_category FlightCategory.LIFR = LEDColors.PURPLE ∧
    Airport.get_color_from_flight_category FlightCategory.UNKNOWN = LEDColors.YELLOW ∧
    ∀ s : String, s ≠ "UNKNOWN" → s ≠ "VFR" → s ≠ "MVFR" → s ≠ "IFR" → s ≠ "LIFR" →
      FlightCategory.from_string s = FlightCategory.UNKNOWN ∧
      Airport.get_color_from_flight_category (FlightCategory.from_string s) =
        LEDColors.YELLOW := by
  refine ⟨rfl, rfl, rfl, rfl, rfl, fun s h1 h2 h3 h4 h5 => ?_⟩
  have hu : FlightCategory.from_string s = FlightCategory.UNKNOWN := by
    simp [FlightCategory.from_string, h1, h2, h3, h4, h5]
  exact ⟨hu, by rw [hu]; rfl⟩

/-- Closed instance of C3 at the unrecognized string SVFR. -/
theorem color_policy_total_witness :
    FlightCategory.from_string ("SVFR") = FlightCategory.UNKNOWN ∧
    Airport.get_color_from_flight_category (FlightCategory.from_string ("SVFR")) =
      LEDColors.YELLOW :=
  color_policy_total.2.2.2.2.2 ("SVFR") (by decide) (by decide) (by decide) (by decide)
    (by decide)

/-- C10: when the primary attempt fails and the alternate responds with a
marker whose text is unrecognized, the final category is Unknown, no error
line is printed, no further query is issued beyond the two requests, and the
LED write is still governed by the change-suppression comparison. -/
theorem alternate_unrecognized_yields_unknown (a : Airport) (s : Session) (br : ℚ)
    (body str : String)
    (hfail : primaryAttemptFailed s a.airport_code)
    (halt : s a.alternate = HttpResult.ok body)
    (hex : extractFlightCategory body = some str)
    (h1 : str ≠ "UNKNOWN") (h2 : str ≠ "VFR") (h3 : str ≠ "MVFR") (h4 : str ≠ "IFR")
    (h5 : str ≠ "LIFR") :
    (a.update_flight_category s br).1.flight_category = FlightCategory.UNKNOWN ∧
    countGets (a.update_flight_category s br).2 = 2 ∧
    (∀ c, Event.printError c ∉ (a.update_flight_category s br).2) ∧
    (a.flight_category = FlightCategory.UNKNOWN →
      (a.update_flight_category s br).1 = a ∧
      countLedWrites (a.update_flight_category s br).2 = 0) ∧
    (a.flight_category ≠ FlightCategory.UNKNOWN →
      countLedWrites (a.update_flight_category s br).2 = 1) := by
  have hstr : FlightCategory.from_string str = FlightCategory.UNKNOWN := by
    simp [FlightCategory.from_string, h1, h2, h3, h4, h5]
  have htry : a.tryAlternate s =
      (FlightCategory.UNKNOWN,
       [Event.printTrying a.airport_code a.alternate, Event.httpGet a.alternate]) := by
    simp [Airport.tryAlternate, halt, hex, hstr]
  have hres : a.resolveCategory s =
      (FlightCategory.UNKNOWN,
       [Event.httpGet a.airport_code, Event.printTrying a.airport_code a.alternate,
        Event.httpGet a.alternate]) := by
    rw [resolve_of_failed a s hfail, htry]
  refine ⟨?_, ?_, ?_, fun hcat => ⟨?_, ?_⟩, fun hcat => ?_⟩
  · rw [update_state, hres]
  · rw [countGets_update, hres]
    simp [countGets, isGetEv]
  · intro c
    rw [printError_update, hres]
    simp
  · rw [update_eq_ite, hres, if_pos hcat.symm]
  · rw [countLedWrites_update, hres, if_pos hcat.symm]
  · rw [countLedWrites_update, hres, if_neg (Ne.symm hcat)]

/-- Closed instance of C10 with an SVFR alternate body. -/
theorem alternate_unrecognized_yields_unknown_witness :
    (aptW.update_flight_category sesUnrecognized 1).1.flight_category =
      FlightCategory.UNKNOWN :=
  (alternate_unrecognized_yields_unknown aptW sesUnrecognized 1
    ("<flight_category>SVFR</flight_category>") ("SVFR") (Or.inl (by decide)) (by decide)
    (by decide) (by decide) (by decide) (by decide) (by decide) (by decide)).1

/-- A color sweep contributes no attempt announcements to countP. -/
lemma countP_attempt_ledWrites (airports : List Airport) (c : Nat) (br : ℚ) :
    List.countP (isAttemptEv ∘ fun a => Event.ledWrite a.led c br) airports = 0 := by
  induction airports with
  | nil => rfl
  | cons a rest ih =>
    rw [List.countP_cons]
    simp [isAttemptEv, Function.comp, ih]

/-- A color sweep contributes no sleeps to countP. -/
lemma countP_sleep_ledWrites (airports : List Airport) (c : Nat) (br : ℚ) :
    List.countP (isSleepEv ∘ fun a => Event.ledWrite a.led c br) airports = 0 := by
  induction airports with
  | nil => rfl
  | cons a rest ih =>
    rw [List.countP_cons]
    simp [isSleepEv, Function.comp, ih]

/-- C4: the startup connectivity procedure makes at most 5 attempts: if all
fail it reports failure after exactly 5 attempts with a one-unit sleep after
each failed attempt and no further retries, and success on attempt k
(1 through 5) returns success immediately after exactly k attempts. -/
theorem connect_retry_bound (airports : List Airport) (wifi : Nat → Bool) (br : ℚ) :
    ((∀ k, 1 ≤ k → k ≤ 5 → wifi k = false) →
      (Map.connect_wifi airports wifi br).1 = false ∧
      countAttempts (Map.connect_wifi airports wifi br).2 = 5 ∧
      countSleeps (Map.connect_wifi airports wifi br).2 = 5 ∧
      (∀ t, Event.sleep t ∈ (Map.connect_wifi airports wifi br).2 → t = 1)) ∧
    (∀ k, 1 ≤ k → k ≤ 5 → (∀ j, 1 ≤ j → j < k → wifi j = false) → wifi k = true →
      (Map.connect_wifi airports wifi br).1 = true ∧
      countAttempts (Map.connect_wifi airports wifi br).2 = k ∧
      countSleeps (Map.connect_wifi airports wifi br).2 = k - 1) := by
  constructor
  · intro h
    have h1 := h 1 (by omega) (by omega)
    have h2 := h 2 (by omega) (by omega)
    have h3 := h 3 (by omega) (by omega)
    have h4 := h 4 (by omega) (by omega)
    have h5 := h 5 (by omega) (by omega)
    refine ⟨?_, ?_, ?_, ?_⟩
    · simp [Map.connect_wifi, connectAttempts, h1, h2, h3, h4, h5]
    · simp [Map.connect_wifi, connectAttempts, h1, h2, h3, h4, h5, countAttempts,
        List.countP_append, List.countP_cons, isAttemptEv, Map.show_color,
        countP_attempt_ledWrites]
    · simp [Map.connect_wifi, connectAttempts, h1, h2, h3, h4, h5, countSleeps,
        List.countP_append, List.countP_cons, isSleepEv, Map.show_color,
        countP_sleep_ledWrites]
    · intro t ht
      simp only [Map.connect_wifi, connectAttempts, h1, h2, h3, h4, h5,
        Bool.false_eq_true, if_false, Map.show_color] at ht
      simp [List.mem_append, List.mem_cons, List.mem_map] at ht
      tauto
  · intro k hk1 hk5 hprev hk
    interval_cases k
    · refine ⟨?_, ?_, ?_⟩ <;>
        simp [Map.connect_wifi, connectAttempts, hk, countAttempts, countSleeps,
          List.countP_append, List.countP_cons, isAttemptEv, isSleepEv, Map.show_color,
          countP_attempt_ledWrites, countP_sleep_ledWrites]
    · have w1 := hprev 1 (by omega) (by omega)
      refine ⟨?_, ?_, ?_⟩ <;>
        simp [Map.connect_wifi, connectAttempts, hk, w1, countAttempts, countSleeps,
          List.countP_append, List.countP_cons, isAttemptEv, isSleepEv, Map.show_color,
          countP_attempt_ledWrites, countP_sleep_ledWrites]
    · have w1 := hprev 1 (by omega) (by omega)
      have w2 := hprev 2 (by omega) (by omega)
      refine ⟨?_, ?_, ?_⟩ <;>
        simp [Map.connect_wifi, connectAttempts, hk, w1, w2, countAttempts, countSleeps,
          List.countP_append, List.countP_cons, isAttemptEv, isSleepEv, Map.show_color,
          countP_attempt_ledWrites, countP_sleep_ledWrites]
    · have w1 := hprev 1 (by omega) (by omega)
      have w2 := hprev 2 (by omega) (by omega)
      have w3 := hprev 3 (by omega) (by omega)
      refine ⟨?_, ?_, ?_⟩ <;>
        simp [Map.connect_wifi, connectAttempts, hk, w1, w2, w3, countAttempts,
          countSleeps, List.countP_append, List.countP_cons, isAttemptEv, isSleepEv,
          Map.show_color, countP_attempt_ledWrites, countP_sleep_ledWrites]
    · have w1 := hprev 1 (by omega) (by omega)
      have w2 := hprev 2 (by omega) (by omega)
      have w3 := hprev 3 (by omega) (by omega)
      have w4 := hprev 4 (by omega) (by omega)
      refine ⟨?_, ?_, ?_⟩ <;>
        simp [Map.connect_wifi, connectAttempts, hk, w1, w2, w3, w4, countAttempts,
          countSleeps, List.countP_append, List.countP_cons, isAttemptEv, isSleepEv,
          Map.show_color, countP_attempt_ledWrites, countP_sleep_ledWrites]

/-- Closed instance of C4 with every attempt failing. -/
theorem connect_retry_bound_witness :
    (Map.connect_wifi [aptW] (fun _ => false) 1).1 = false ∧
    countAttempts (Map.connect_wifi [aptW] (fun _ => false) 1).2 = 5 :=
  ⟨((connect_retry_bound [aptW] (fun _ => false) 1).1 (fun _ _ _ => rfl)).1,
   ((connect_retry_bound [aptW] (fun _ => false) 1).1 (fun _ _ _ => rfl)).2.1⟩

/-- C5: when all five connection attempts fail the startup returns failure,
paints every LED red and exits with code 1; when some attempt succeeds the
process does not exit and proceeds into the polling loop. -/
theorem startup_failure_red_exit (airports : List Airport) (wifi : Nat → Bool) (br : ℚ) :
    ((∀ k, 1 ≤ k → k ≤ 5 → wifi k = false) →
      (mainStartup airports wifi br).1 = MainOutcome.exited 1 ∧
      (∃ pre, (mainStartup airports wifi br).2 =
        pre ++ Map.show_color airports LEDColors.RED br) ∧
      (∀ a ∈ airports, ∀ d, displayedColor a.led d (mainStartup airports wifi br).2 =
        LEDColors.RED)) ∧
    ((∃ k, 1 ≤ k ∧ k ≤ 5 ∧ wifi k = true) →
      (mainStartup airports wifi br).1 = MainOutcome.polling) := by
  constructor
  · intro h
    have hf : (Map.connect_wifi airports wifi br).1 = false := by
      rw [Map.connect_wifi]
      cases hb : (connectAttempts airports wifi br [1, 2, 3, 4, 5]).1
      · rfl
      · exfalso
        obtain ⟨k, hk, hw⟩ :=
          (connectAttempts_true_iff airports wifi br [1, 2, 3, 4, 5]).mp hb
        have hk2 : 1 ≤ k ∧ k ≤ 5 := by
          simp at hk
          omega
        rw [h k hk2.1 hk2.2] at hw
        cases hw
    refine ⟨by simp [mainStartup, hf], ⟨(Map.connect_wifi airports wifi br).2,
      by simp [mainStartup, hf]⟩, ?_⟩
    intro a ha d
    simp only [mainStartup, hf, Bool.false_eq_true, if_false]
    rw [displayedColor_append]
    exact displayedColor_show_color_mem a airports LEDColors.RED br _ ha
  · rintro ⟨k, hk1, hk5, hw⟩
    have ht : (Map.connect_wifi airports wifi br).1 = true := by
      rw [Map.connect_wifi, connectAttempts_true_iff]
      exact ⟨k, by simp; omega, hw⟩
    simp [mainStartup, ht]

/-- Closed instance of C5 with every attempt failing. -/
theorem startup_failure_red_exit_witness :
    (mainStartup [aptW] (fun _ => false) 1).1 = MainOutcome.exited 1 :=
  ((startup_failure_red_exit [aptW] (fun _ => false) 1).1 (fun _ _ _ => rfl)).1

/-- C6 (amended): construction establishes the correspondence between the
stored category and the color last written to the airport LED, and every
update_flight_category call preserves it; the all-map color sweeps of the
startup sequence are exactly the operations that break it. -/
theorem current_category_display_invariant :
    (∀ (code : String) (rp gp bp : ℤ) (alt : String) (host : LEDDriverBoard) (br : ℚ)
      (d : Nat),
      displayedColor (Airport.init code rp gp bp alt host br).1.led d
          (Airport.init code rp gp bp alt host br).2 =
        Airport.get_color_from_flight_category
          (Airport.init code rp gp bp alt host br).1.flight_category) ∧
    (∀ (a : Airport) (s : Session) (br : ℚ) (d : Nat),
      d = Airport.get_color_from_flight_category a.flight_category →
      displayedColor a.led d (a.update_flight_category s br).2 =
        Airport.get_color_from_flight_category
          (a.update_flight_category s br).1.flight_category) := by
  constructor
  · intro code rp gp bp alt host br d
    simp [Airport.init, displayedColor, Airport.get_color_from_flight_category]
  · intro a s br d hd
    rw [update_eq_ite]
    by_cases h : (a.resolveCategory s).1 = a.flight_category
    · rw [if_pos h]
      rw [displayedColor_no_writes a.led d _ (countLedWrites_resolve a s), hd]
    · rw [if_neg h]
      rw [displayedColor_append, displayedColor_no_writes a.led d _
        (countLedWrites_resolve a s)]
      simp [displayedColor]

/-- Closed instance of the amended C6 through one update call. -/
theorem current_category_display_invariant_witness :
    displayedColor aptW.led LEDColors.YELLOW
        (aptW.update_flight_category sesFallbackVFR 1).2 =
      Airport.get_color_from_flight_category
        (aptW.update_flight_category sesFallbackVFR 1).1.flight_category :=
  current_category_display_invariant.2 aptW sesFallbackVFR 1 LEDColors.YELLOW rfl

/-- C6 is false as stated: four events into the startup sequence (right
after the all-green success sweep) a freshly constructed airport displays
green while its stored category is still Unknown, whose policy color is
yellow; the startup sweeps do not preserve the correspondence. -/
theorem current_category_display_counterexample :
    displayedColor aptW.led
        (Airport.get_color_from_flight_category aptW.flight_category)
        (List.take 4 (mainStartup [aptW] (fun _ => true) 1).2) ≠
      Airport.get_color_from_flight_category aptW.flight_category := by
  decide

/-- C7: for a packed 24-bit color, set_color writes the Python truncation of
channel value times brightness for exactly the three channel indices, the
channel values are the three bytes of the color each at most 255, and for
brightness in the unit interval the truncation is the floor; no brightness
validation occurs (the decomposition holds for every brightness). -/
theorem set_color_decomposition (led : RGBLED) (color : Nat) (br : ℚ)
    (hc : color < 2 ^ 24) :
    RGBLED.set_color led color br =
      [⟨led.host, led.red_pin_num, pyInt ((color / 2 ^ 16 % 2 ^ 8 : Nat) * br)⟩,
       ⟨led.host, led.green_pin_num, pyInt ((color / 2 ^ 8 % 2 ^ 8 : Nat) * br)⟩,
       ⟨led.host, led.blue_pin_num, pyInt ((color % 2 ^ 8 : Nat) * br)⟩] ∧
    color / 2 ^ 16 % 2 ^ 8 ≤ 255 ∧ color / 2 ^ 8 % 2 ^ 8 ≤ 255 ∧ color % 2 ^ 8 ≤ 255 ∧
    (0 ≤ br → br ≤ 1 →
      RGBLED.set_color led color br =
        [⟨led.host, led.red_pin_num, ⌊((color / 2 ^ 16 % 2 ^ 8 : Nat) : ℚ) * br⌋⟩,
         ⟨led.host, led.green_pin_num, ⌊((color / 2 ^ 8 % 2 ^ 8 : Nat) : ℚ) * br⌋⟩,
         ⟨led.host, led.blue_pin_num, ⌊((color % 2 ^ 8 : Nat) : ℚ) * br⌋⟩]) := by
  have h256 : (2 : Nat) ^ 8 = 256 := by norm_num
  have hmain : RGBLED.set_color led color br =
      [⟨led.host, led.red_pin_num, pyInt ((color / 2 ^ 16 % 2 ^ 8 : Nat) * br)⟩,
       ⟨led.host, led.green_pin_num, pyInt ((color / 2 ^ 8 % 2 ^ 8 : Nat) * br)⟩,
       ⟨led.host, led.blue_pin_num, pyInt ((color % 2 ^ 8 : Nat) * br)⟩] := by
    simp only [RGBLED.set_color]
    rw [red_byte color hc, green_byte color, blue_byte color]
  refine ⟨hmain, ?_, ?_, ?_, fun hb0 _hb1 => ?_⟩
  · rw [h256]
    exact Nat.le_of_lt_succ (Nat.mod_lt _ (by norm_num))
  · rw [h256]
    exact Nat.le_of_lt_succ (Nat.mod_lt _ (by norm_num))
  · rw [h256]
    exact Nat.le_of_lt_succ (Nat.mod_lt _ (by norm_num))
  · rw [hmain,
      pyInt_eq_floor (((color / 2 ^ 16 % 2 ^ 8 : Nat) : ℚ) * br)
        (mul_nonneg (Nat.cast_nonneg _) hb0),
      pyInt_eq_floor (((color / 2 ^ 8 % 2 ^ 8 : Nat) : ℚ) * br)
        (mul_nonneg (Nat.cast_nonneg _) hb0),
      pyInt_eq_floor (((color % 2 ^ 8 : Nat) : ℚ) * br)
        (mul_nonneg (Nat.cast_nonneg _) hb0)]

/-- Closed instance of C7 at the yellow constant and full brightness. -/
theorem set_color_decomposition_witness :
    (0xFF2200 : Nat) < 2 ^ 24 ∧
    RGBLED.set_color aptW.led 0xFF2200 1 =
      [⟨aptW.led.host, aptW.led.red_pin_num, pyInt ((0xFF2200 / 2 ^ 16 % 2 ^ 8 : Nat) * 1)⟩,
       ⟨aptW.led.host, aptW.led.green_pin_num, pyInt ((0xFF2200 / 2 ^ 8 % 2 ^ 8 : Nat) * 1)⟩,
       ⟨aptW.led.host, aptW.led.blue_pin_num, pyInt ((0xFF2200 % 2 ^ 8 : Nat) * 1)⟩] :=
  ⟨by decide, (set_color_decomposition aptW.led 0xFF2200 1 (by decide)).1⟩

/-- C8: board resolution returns a registered board matching the requested
controller index and address or signals not-found, and a not-found result
while a configuration line is processed means the airport is never
constructed and the whole startup run aborts. -/
theorem board_resolution_fatal :
    (∀ (bm : BoardManager) (ci ad : ℤ) (b : LEDDriverBoard),
      bm.get_board ci ad = some b →
      b ∈ bm.boards ∧ pyListGet bm.controllers ci = some b.controller ∧
        (b.addr : ℤ) = ad) ∧
    (∀ (bm : BoardManager) (ci ad : ℤ),
      bm.get_board ci ad = none ↔
      ∀ b ∈ bm.boards,
        ¬(pyListGet bm.controllers ci = some b.controller ∧ (b.addr : ℤ) = ad)) ∧
    (∀ (line : String) (bm : BoardManager) (br : ℚ) (f1 f2 : String) (ci ad : ℤ),
      (pySplit line).get? 1 = some f1 → pyParseInt f1 = some ci →
      (pySplit line).get? 2 = some f2 → pyParseHex f2 = some ad →
      bm.get_board ci ad = none →
      ∀ res, Airport.from_config_line line bm br ≠ Except.ok res) ∧
    (∀ (lines : List String) (line : String) (bm : BoardManager) (wifi : Nat → Bool)
      (br : ℚ),
      line ∈ lines → (∀ res, Airport.from_config_line line bm br ≠ Except.ok res) →
      ∀ r, mainRun lines bm wifi br ≠ Except.ok r) := by
  refine ⟨?_, ?_, ?_, ?_⟩
  · intro bm ci ad b hb
    have hp := List.find?_some hb
    simp only [Bool.and_eq_true, decide_eq_true_eq] at hp
    exact ⟨List.mem_of_find?_eq_some hb, hp.1, hp.2⟩
  · intro bm ci ad
    rw [BoardManager.get_board, List.find?_eq_none]
    constructor
    · intro hf b hbm hmatch
      have := hf b hbm
      simp only [Bool.and_eq_true, decide_eq_true_eq] at this
      exact this ⟨hmatch.1, hmatch.2⟩
    · intro hno b hbm
      simp only [Bool.and_eq_true, decide_eq_true_eq]
      intro hmatch
      exact hno b hbm ⟨hmatch.1, hmatch.2⟩
  · intro line bm br f1 f2 ci ad h1 h2 h3 h4 h5 res hres
    simp only [Airport.from_config_line, h1, h2, h3, h4, h5] at hres
    repeat' split at hres
    all_goals exact Except.noConfusion hres
  · intro lines line bm wifi br hmem hbad r hr
    rw [mainRun] at hr
    cases hl : AirportManager.load_airports bm br lines with
    | error e => rw [hl] at hr; exact Except.noConfusion hr
    | ok z =>
      obtain ⟨res, hres⟩ := load_airports_ok_mem bm br lines line z hl hmem
      exact hbad res hres

/-- Closed instance of C8 at a line naming an unregistered address 0x60. -/
theorem board_resolution_fatal_witness :
    Airport.from_config_line ("KXYZ 0 60 0 1 2 KABC") bmW 1 ≠ Except.ok (aptW, []) :=
  board_resolution_fatal.2.2.1 ("KXYZ 0 60 0 1 2 KABC") bmW 1 ("0") ("60") 0 96
    (by decide) (by decide) (by decide) (by decide) (by decide) (aptW, [])

/-- C9 is false as stated: a blank configuration line raises an IndexError
inside from_config_line, and loading a file containing it aborts with that
error instead of tolerating the line. -/
theorem config_blank_line_counterexample :
    Airport.from_config_line ("") bmW 1 = Except.error PyError.indexError ∧
    AirportManager.load_airports bmW 1 [""] = Except.error PyError.indexError := by
  exact ⟨rfl, rfl⟩

/-- C9 (amended): configuration loading performs no explicit validation, and
a blank line or one with fewer than the seven required fields makes
from_config_line raise an uncaught exception (IndexError for the blank line,
ValueError when a present field fails integer parsing), which aborts loading,
rather than being skipped. -/
theorem config_short_line_errors (line : String) (bm : BoardManager) (br : ℚ)
    (h : (pySplit line).length < 7) :
    (∃ e, Airport.from_config_line line bm br = Except.error e) ∧
    (∀ res, Airport.from_config_line line bm br ≠ Except.ok res) ∧
    (∀ lines, line ∈ lines →
      ∀ r, AirportManager.load_airports bm br lines ≠ Except.ok r) := by
  have hfirst : ∀ res, Airport.from_config_line line bm br ≠ Except.ok res := by
    intro res hres
    have h6 : (pySplit line).get? 6 = none := List.get?_eq_none.mpr (by omega)
    simp only [Airport.from_config_line, h6] at hres
    repeat' split at hres
    all_goals exact Except.noConfusion hres
  refine ⟨?_, hfirst, fun lines hmem r hr => ?_⟩
  · cases he : Airport.from_config_line line bm br with
    | error e => exact ⟨e, rfl⟩
    | ok res => exact absurd he (hfirst res)
  · obtain ⟨res, hres⟩ := load_airports_ok_mem bm br lines line r hr hmem
    exact hfirst res hres

/-- Closed instance of the amended C9 at the blank line. -/
theorem config_short_line_errors_witness :
    Airport.from_config_line ("") bmW 1 ≠ Except.ok (aptW, []) :=
  (config_short_line_errors ("") bmW 1 (by decide)).2.1 (aptW, [])

end MetarMap
